import Mathlib

/-!
Verification of the cart subsystem of the `pyshop-api` repository.

Shallow embedding of the cart data model and the operations of
`app/services/cart_service.py`, `app/services/cart_resolution.py`,
`app/dependencies/cart.py`, `app/utils/cookies.py` and
`app/middleware/session.py`.

Modelling conventions:
* `datetime.utcnow()` is modelled by an explicit `now : Nat` parameter; a
  single value is used for all the calls made during one operation (the
  real calls differ by microseconds inside one request).
* Money amounts (`unit_price`, subtotals) are modelled as exact rationals
  `ℚ`; Python's `round(x, 2)` on floats produces the correctly rounded
  decimal with ties going to the even last digit, modelled by
  `pythonRound2` below.
* SQLAlchemy mutations are modelled by explicit state passing: an
  operation that mutates carts returns the post-state of every cart it
  touches.  Reassigning `item.cart_id` moves the item from one cart's
  `items` list to the other's; the loaded relationship collection of the
  target cart does not see transferred items until the final refresh, so
  transferred items are appended after the processed original items.
* f-string messages are modelled by inductive message types whose
  constructors carry exactly the interpolated values of the corresponding
  `append` site in the source.
-/

namespace Pyshop

/-- Python's `abs` on our exact-rational prices (kernel-computable; equal
to Mathlib's `|·|` by `ratAbs_eq_abs`). -/
def ratAbs (x : ℚ) : ℚ := if x < 0 then -x else x

/-- Cart status, from `CartStatus` in `app/models/cart.py`. -/
inductive CartStatus where
  | active
  | abandoned
  | converted
  | expired
deriving DecidableEq, Repr

/-- A catalog product (`app/models/product.py`): id, name and live price. -/
structure Product where
  id : Nat
  name : String
  price : ℚ
deriving DecidableEq, Repr

/-- A cart item row (`CartItem` in `app/models/cart.py`).
`quantity` is a Python `int` (may be non-positive in bad states), the
price is the snapshot `unit_price`. `created_at` is never read by the
operations under study and is omitted. -/
structure CartItem where
  id : Nat
  productId : Nat
  quantity : Int
  unitPrice : ℚ
  updatedAt : Nat
deriving DecidableEq, Repr

/-- A cart row (`Cart` in `app/models/cart.py`) together with its loaded
`items` relationship. -/
structure Cart where
  id : Nat
  status : CartStatus
  items : List CartItem
  updatedAt : Nat
  expiresAt : Option Nat
deriving DecidableEq, Repr

/-- The resolution messages appended by
`CartResolutionService.resolve_cart_conflicts`; one constructor per
`resolution_messages.append(...)` site, carrying the interpolated values. -/
inductive RMsg where
  /-- "Session cart is empty, no conflicts to resolve" -/
  | sessionEmpty
  /-- "User cart is empty, adopting all session cart items" -/
  | userEmptyAdoptAll
  /-- "Product {pid}: Combined quantity ({userQ} + {sessQ}) exceeds maximum, capped at 99" -/
  | capped (pid : Nat) (userQ sessQ : Int)
  /-- "Product {pid}: Merged quantities ({oldQ} + {sessQ} = {newQ})" -/
  | merged (pid : Nat) (oldQ sessQ newQ : Int)
  /-- "Product {pid}: Using newer price ${price} from session cart" -/
  | newerPrice (pid : Nat) (price : ℚ)
  /-- "Added product {pid} from session cart" -/
  | added (pid : Nat)
deriving DecidableEq, Repr

/-! ## `CartResolutionService.resolve_cart_conflicts`
(`app/services/cart_resolution.py`, lines 123-205) -/

/-- The conflict branch of the merge loop (lines 157-186): the user cart
holds `userItem` for the same product as the session item `sessionItem`.
Returns the updated user item and the messages appended for this item.
Note the source sets `user_item.updated_at = datetime.utcnow()` at line
177 *before* comparing `session_item.updated_at > user_item.updated_at`
at line 180, so the comparison is against `now`, not against the user
item's previous timestamp. -/
def conflictUpdate (now : Nat) (userItem sessionItem : CartItem) :
    CartItem × List RMsg :=
  let sumQ : Int := userItem.quantity + sessionItem.quantity
  let quantMsg : RMsg :=
    if sumQ > 99 then
      RMsg.capped sessionItem.productId userItem.quantity sessionItem.quantity
    else
      RMsg.merged sessionItem.productId userItem.quantity sessionItem.quantity sumQ
  let newQ : Int := if sumQ > 99 then 99 else sumQ
  let item1 : CartItem := { userItem with quantity := newQ, updatedAt := now }
  if sessionItem.updatedAt > item1.updatedAt then
    if ratAbs (item1.unitPrice - sessionItem.unitPrice) > 1/100 then
      ({ item1 with unitPrice := sessionItem.unitPrice },
       [quantMsg, RMsg.newerPrice sessionItem.productId sessionItem.unitPrice])
    else
      (item1, [quantMsg])
  else
    (item1, [quantMsg])

/-- The inner search of the merge loop (lines 150-155): find the first
user-cart item with the session item's product id and apply
`conflictUpdate` to it in place.  Returns `none` when the user cart has
no item for that product. -/
def updateMatch (now : Nat) (s : CartItem) :
    List CartItem → Option (List CartItem × List RMsg)
  | [] => none
  | u :: us =>
    if u.productId = s.productId then
      some ((conflictUpdate now u s).1 :: us, (conflictUpdate now u s).2)
    else
      (updateMatch now s us).map fun r => (u :: r.1, r.2)

/-- The merge loop over the session items (lines 149-193), threading the
user cart's loaded item list.  Returns the final states of the original
user items, the items transferred from the session cart (their
`cart_id` reassignment makes them user-cart items, visible only after
the refresh), and the resolution messages in session-item order. -/
def mergeItems (now : Nat) (userItems : List CartItem) :
    List CartItem → List CartItem × List CartItem × List RMsg
  | [] => (userItems, [], [])
  | s :: rest =>
    match updateMatch now s userItems with
    | some (userItems2, msgs) =>
      let r := mergeItems now userItems2 rest
      (r.1, r.2.1, msgs ++ r.2.2)
    | none =>
      let r := mergeItems now userItems rest
      (r.1, { s with updatedAt := now } :: r.2.1, RMsg.added s.productId :: r.2.2)

/-- `CartResolutionService.resolve_cart_conflicts(user_cart, session_cart)`.
The Python function returns `(user_cart, messages)`; the model also
returns the post-state of the session cart (second component) so the
source cart's database state after the call can be stated.
* Empty session cart (lines 132-134): returns the user cart unchanged
  with a single informational message; the session cart is untouched.
* Empty user cart (lines 136-146): transfers every session item
  (timestamps refreshed) with a single summary message; the session cart
  row itself is not modified — in particular its status is unchanged.
* Otherwise (lines 148-205): the merge loop, then the session cart is
  marked abandoned and both carts' timestamps are bumped. -/
def resolve_cart_conflicts (userCart sessionCart : Cart) (now : Nat) :
    Cart × Cart × List RMsg :=
  if sessionCart.items.isEmpty then
    (userCart, sessionCart, [RMsg.sessionEmpty])
  else if userCart.items.isEmpty then
    ({ userCart with items := sessionCart.items.map fun i => { i with updatedAt := now } },
     { sessionCart with items := [] },
     [RMsg.userEmptyAdoptAll])
  else
    let r := mergeItems now userCart.items sessionCart.items
    ({ userCart with items := r.1 ++ r.2.1, updatedAt := now },
     { sessionCart with items := [], status := CartStatus.abandoned, updatedAt := now },
     r.2.2)

/-! ## `CartService.merge_carts`
(`app/services/cart_service.py`, lines 247-289) -/

/-- The inner search of `merge_carts` (lines 258-268): find the first
target item with the source item's product id and add the source
quantity to it (no clamp, no price policy). -/
def mergeTransfer (now : Nat) (s : CartItem) :
    List CartItem → Option (List CartItem)
  | [] => none
  | t :: ts =>
    if t.productId = s.productId then
      some ({ t with quantity := t.quantity + s.quantity, updatedAt := now } :: ts)
    else
      (mergeTransfer now s ts).map fun ts2 => t :: ts2

/-- The item loop of `merge_carts` (lines 257-272): existing target items
are incremented in place, other source items are moved (cart_id
reassigned, visible after the final re-fetch). -/
def mergeCartsItems (now : Nat) (targetItems : List CartItem) :
    List CartItem → List CartItem × List CartItem
  | [] => (targetItems, [])
  | s :: rest =>
    match mergeTransfer now s targetItems with
    | some t2 =>
      let r := mergeCartsItems now t2 rest
      (r.1, r.2)
    | none =>
      let r := mergeCartsItems now targetItems rest
      (r.1, { s with updatedAt := now } :: r.2)

/-- `CartService.merge_carts(source_cart_id, target_cart_id)` after both
carts were found: returns the post-states `(target, source)`.  The source
cart is always marked abandoned; the target's timestamp is bumped. -/
def merge_carts (sourceCart targetCart : Cart) (now : Nat) : Cart × Cart :=
  let r := mergeCartsItems now targetCart.items sourceCart.items
  ({ targetCart with items := r.1 ++ r.2, updatedAt := now },
   { sourceCart with items := [], status := CartStatus.abandoned, updatedAt := now })

/-! ## `CartService.update_item_quantity`
(`app/services/cart_service.py`, lines 129-162) -/

/-- `CartService.update_item_quantity(cart_id, item_id, quantity)` acting
on the cart's item rows: the select finds the row with the given item id
(ids are primary keys, so at most one); a missing row returns
`(None, unchanged)`; `quantity <= 0` deletes the row and *also* returns
`None`; a positive quantity sets it and returns the updated row.  The
first component is the Python return value, the second the post-state of
the cart's items. -/
def update_item_quantity (now : Nat) (itemId : Nat) (quantity : Int) :
    List CartItem → Option CartItem × List CartItem
  | [] => (none, [])
  | it :: rest =>
    if it.id = itemId then
      if quantity ≤ 0 then
        (none, rest)
      else
        let it2 : CartItem := { it with quantity := quantity, updatedAt := now }
        (some it2, it2 :: rest)
    else
      let r := update_item_quantity now itemId quantity rest
      (r.1, it :: r.2)

/-! ## `CartService.calculate_cart_summary`
(`app/services/cart_service.py`, lines 205-215) -/

/-- Round a rational to the nearest integer with ties going to the even
integer.  Python's `round(x)` on the exact value of a float behaves this
way (round-half-even on the decimal expansion). -/
def roundHalfEvenInt (x : ℚ) : ℤ :=
  let f : ℤ := ⌊x⌋
  let r : ℚ := x - f
  if r < 1/2 then f
  else if r > 1/2 then f + 1
  else if f % 2 = 0 then f else f + 1

/-- Python's `round(x, 2)`: round to two decimal places, ties to even. -/
def pythonRound2 (x : ℚ) : ℚ :=
  (roundHalfEvenInt (x * 100) : ℚ) / 100

/-- The result record of `calculate_cart_summary` (`CartSummary`). -/
structure CartSummary where
  totalItems : Nat
  totalQuantity : Int
  subtotal : ℚ
deriving DecidableEq, Repr

/-- `CartService.calculate_cart_summary(cart)`: row count, quantity sum,
and `round(sum(quantity * unit_price), 2)`. -/
def calculate_cart_summary (cart : Cart) : CartSummary :=
  { totalItems := cart.items.length
    totalQuantity := (cart.items.map CartItem.quantity).sum
    subtotal := pythonRound2 ((cart.items.map fun i => (i.quantity : ℚ) * i.unitPrice).sum) }

/-- Modelled from the spec: the round-half-up rule named by section 8 of
the spec ("pick round-half-up and test exactly that value"), used only to
compare the spec's claimed rounding rule with the code's `pythonRound2`.
Rounds to two decimals with halves going away from the floor. -/
def specRoundHalfUp2 (x : ℚ) : ℚ :=
  (⌊x * 100 + 1/2⌋ : ℚ) / 100

/-! ## `CartResolutionService.resolve_and_validate_cart`
(`app/services/cart_resolution.py`, lines 25-121) -/

/-- The validation messages appended by `resolve_and_validate_cart`; one
constructor per `errors.append`/`warnings.append` site, carrying the
interpolated values. -/
inductive VMsg where
  /-- error "Cart not found" -/
  | cartNotFound
  /-- error "Product {pid} is no longer available" -/
  | productUnavailable (pid : Nat)
  /-- warning "Price for '{name}' has changed from ${old} to ${new}" -/
  | priceChanged (name : String) (oldPrice newPrice : ℚ)
  /-- error "Invalid quantity {q} for product {name}" -/
  | invalidQuantity (q : Int) (name : String)
  /-- warning "Quantity {q} for '{name}' exceeds maximum (99)" -/
  | quantityExceedsMax (q : Int) (name : String)
  /-- error "Cart has {n} items, maximum allowed is 100" -/
  | tooManyItems (n : Nat)
  /-- warning "Total quantity {q} is very high" -/
  | highTotalQuantity (q : Int)
  /-- error "Cart has expired" -/
  | cartExpired
deriving DecidableEq, Repr

/-- The result of `resolve_and_validate_cart` (`CartValidationResult`).
`updatedItems` lists the mutated ORM objects; since Python appends
references, every entry shows the item's final state (an item mutated
twice appears twice, both entries final). -/
structure CartValidationResult where
  isValid : Bool
  errors : List VMsg
  warnings : List VMsg
  updatedItems : List CartItem
deriving DecidableEq, Repr

/-- The per-item body of the validation loop (lines 44-76): product
existence check, price-drift correction, then quantity constraints.
Returns the item's final state, its errors, its warnings, and the
`updated_items` entries contributed (final states, per the aliasing
noted on `CartValidationResult`). -/
def validateItem (catalog : List Product) (now : Nat) (item : CartItem) :
    CartItem × List VMsg × List VMsg × List CartItem :=
  match catalog.find? fun p => p.id = item.productId with
  | none => (item, [VMsg.productUnavailable item.productId], [], [])
  | some product =>
    let priceChanged : Bool := ratAbs (item.unitPrice - product.price) > 1/100
    let item1 : CartItem :=
      if priceChanged then { item with unitPrice := product.price, updatedAt := now }
      else item
    let priceWarnings : List VMsg :=
      if priceChanged then [VMsg.priceChanged product.name item.unitPrice product.price]
      else []
    if item1.quantity < 1 then
      (item1, [VMsg.invalidQuantity item1.quantity product.name], priceWarnings,
       if priceChanged then [item1] else [])
    else if item1.quantity > 99 then
      let item2 : CartItem := { item1 with quantity := 99, updatedAt := now }
      (item2, [],
       priceWarnings ++ [VMsg.quantityExceedsMax item1.quantity product.name],
       if priceChanged then [item2, item2] else [item2])
    else
      (item1, [], priceWarnings, if priceChanged then [item1] else [])

/-- `CartResolutionService.resolve_and_validate_cart(cart_id)` after the
cart was found: item-level validation (lines 44-76), then the cart-level
checks (lines 78-89): more than 100 rows is an error, total quantity
(of the now-mutated items) above 500 a warning, a past `expires_at` an
error.  `is_valid` is `len(errors) == 0`.  Returns the result and the
post-state of the cart. -/
def resolve_and_validate_cart (catalog : List Product) (cart : Cart) (now : Nat) :
    CartValidationResult × Cart :=
  let per := cart.items.map (validateItem catalog now)
  let newItems := per.map fun r => r.1
  let itemErrors := (per.map fun r => r.2.1).flatten
  let itemWarnings := (per.map fun r => r.2.2.1).flatten
  let updated := (per.map fun r => r.2.2.2).flatten
  let cartErrors1 :=
    if cart.items.length > 100 then [VMsg.tooManyItems cart.items.length] else []
  let totalQuantity := (newItems.map CartItem.quantity).sum
  let cartWarnings :=
    if totalQuantity > 500 then [VMsg.highTotalQuantity totalQuantity] else []
  let cartErrors2 :=
    match cart.expiresAt with
    | some e => if e < now then [VMsg.cartExpired] else []
    | none => []
  let errors := itemErrors ++ cartErrors1 ++ cartErrors2
  let warnings := itemWarnings ++ cartWarnings
  ({ isValid := errors.isEmpty
     errors := errors
     warnings := warnings
     updatedItems := updated },
   { cart with items := newItems })

/-! ## `get_current_cart`
(`app/dependencies/cart.py`, lines 33-81) -/

/-- An opaque exception value (the code treats all exceptions alike). -/
structure Exc where
  code : Nat
deriving DecidableEq, Repr

/-- `get_current_cart(cart_service, session_id, current_user)`.  The
results the three service calls *would* produce are passed as `Except`
values: `fetchUserCart` for `get_or_create_cart(user_id=...)`,
`fetchSessionCart` for `get_or_create_cart(session_id=...)` and
`mergeResult` for `merge_carts(...)` (an `error` models the call
raising).  Control flow from the source:
* authenticated: fetch the user cart; if a session id is present and
  differs from the user cart's id, the inner `try` fetches the session
  cart and, when it is a distinct non-empty cart, merges it — any
  exception inside that block is swallowed (`except Exception: pass`)
  and the user cart is returned unmerged;
* if fetching the user cart itself raises, the outer handler returns the
  session cart when a session id exists and re-raises otherwise;
* unauthenticated: a missing session id raises (`ValueError`), else the
  session cart is returned. -/
def get_current_cart (userId : Option Nat) (sessionId : Option Nat)
    (fetchUserCart fetchSessionCart mergeResult : Except Exc Cart)
    (noSessionError : Exc) : Except Exc Cart :=
  match userId with
  | some _ =>
    match fetchUserCart with
    | Except.ok userCart =>
      match sessionId with
      | some sid =>
        if sid ≠ userCart.id then
          match fetchSessionCart with
          | Except.error _ => Except.ok userCart
          | Except.ok sessionCart =>
            if sessionCart.id ≠ userCart.id ∧ ¬ sessionCart.items.isEmpty then
              match mergeResult with
              | Except.error _ => Except.ok userCart
              | Except.ok merged => Except.ok merged
            else
              Except.ok userCart
        else
          Except.ok userCart
      | none => Except.ok userCart
    | Except.error e =>
      match sessionId with
      | some _ => fetchSessionCart
      | none => Except.error e
  | none =>
    match sessionId with
    | none => Except.error noSessionError
    | some _ => fetchSessionCart

/-! ## Session cookie extraction and the session middleware
(`app/utils/cookies.py` lines 123-146, `app/middleware/session.py`
lines 37-58).  The session cookie is created with `encrypt=False,
sign=True` (`create_session_cookie`), so `get_cookie` only checks the
HMAC signature.  The HMAC is modelled as an abstract keyed function
`sig : String → String`; `hmac.compare_digest` is equality. -/

/-- Python's `s.rsplit(".", 1)` restricted to the two-part result used by
the source: split at the *last* dot; `none` models the `ValueError` when
the string contains no dot. -/
def rsplitDot1 (s : String) : Option (String × String) :=
  let rev := s.data.reverse
  let afterRev := rev.takeWhile fun c => c ≠ '.'
  if afterRev.length = rev.length then
    none
  else
    some (⟨(rev.drop (afterRev.length + 1)).reverse⟩, ⟨afterRev.reverse⟩)

/-- `SecureCookie.get_cookie(request)` for the session cookie: a missing
or empty cookie yields `None`; with signing enabled the value must be
`value.signature` with a verifying signature, else `None`. -/
def get_cookie (sig : String → String) (cookieValue : Option String) :
    Option String :=
  match cookieValue with
  | none => none
  | some c =>
    if c = "" then none
    else
      match rsplitDot1 c with
      | none => none
      | some (valuePart, signaturePart) =>
        if sig valuePart = signaturePart then some valuePart else none

/-- The session-id assignment of `SessionMiddleware.dispatch` (lines
41-48): the validated cookie value, or a freshly generated UUID when the
cookie is missing, invalid or empty. -/
def dispatch_session_id (sig : String → String) (cookieValue : Option String)
    (freshUuid : String) : String :=
  match get_cookie sig cookieValue with
  | none => freshUuid
  | some s => if s = "" then freshUuid else s

/-! ## Concrete fixtures used in closed statements -/

/-- Whether a resolution message is the price-adoption message
("Using newer price ... from session cart"). -/
def RMsg.isPriceAdoption : RMsg → Bool
  | RMsg.newerPrice _ _ => true
  | _ => false

/-- User item for product 1, quantity 5 (spec section 8 merge example). -/
def itemA5 : CartItem :=
  { id := 10, productId := 1, quantity := 5, unitPrice := 10, updatedAt := 0 }

/-- Session item for product 1, quantity 97. -/
def itemA97 : CartItem :=
  { id := 20, productId := 1, quantity := 97, unitPrice := 10, updatedAt := 0 }

/-- Session item for product 2, quantity 2. -/
def itemB2 : CartItem :=
  { id := 21, productId := 2, quantity := 2, unitPrice := 3, updatedAt := 0 }

/-- User cart `{A: qty 5}`. -/
def userCartA : Cart :=
  { id := 1, status := CartStatus.active, items := [itemA5], updatedAt := 0,
    expiresAt := none }

/-- Session cart `{A: qty 97, B: qty 2}`. -/
def sessCartAB : Cart :=
  { id := 2, status := CartStatus.active, items := [itemA97, itemB2], updatedAt := 0,
    expiresAt := some 100 }

/-- User cart holding product 1 priced 10.00, last updated at time 1. -/
def userCartPrice : Cart :=
  { id := 1, status := CartStatus.active,
    items := [{ id := 10, productId := 1, quantity := 1, unitPrice := 10, updatedAt := 1 }],
    updatedAt := 1, expiresAt := none }

/-- Session cart holding product 1 priced 12.00, last updated at time 2
(strictly fresher than the user item's snapshot). -/
def sessCartPrice : Cart :=
  { id := 2, status := CartStatus.active,
    items := [{ id := 20, productId := 1, quantity := 1, unitPrice := 12, updatedAt := 2 }],
    updatedAt := 2, expiresAt := some 100 }

/-- An empty active user cart. -/
def emptyUserCart : Cart :=
  { id := 1, status := CartStatus.active, items := [], updatedAt := 0, expiresAt := none }

/-- An empty active session cart. -/
def emptySessCart : Cart :=
  { id := 2, status := CartStatus.active, items := [], updatedAt := 0, expiresAt := some 100 }

/-- A one-product catalog for the validation example. -/
def catalogW : List Product := [{ id := 1, name := "Widget", price := 5 }]

/-- A cart holding product 1 with quantity 150 at the live price. -/
def cart150 : Cart :=
  { id := 3, status := CartStatus.active,
    items := [{ id := 30, productId := 1, quantity := 150, unitPrice := 5, updatedAt := 0 }],
    updatedAt := 0, expiresAt := none }

/-- Item list with a single item (id 1, product 1, qty 5). -/
def itemsOne : List CartItem :=
  [{ id := 1, productId := 1, quantity := 5, unitPrice := 2, updatedAt := 0 }]

/-- Cart with items (qty 2 @ 3.335, qty 1 @ 1.00), spec section 8's
summary-arithmetic example. -/
def cartSummaryEx : Cart :=
  { id := 4, status := CartStatus.active,
    items := [{ id := 40, productId := 1, quantity := 2, unitPrice := 3335/1000, updatedAt := 0 },
              { id := 41, productId := 2, quantity := 1, unitPrice := 1, updatedAt := 0 }],
    updatedAt := 0, expiresAt := none }

/-- Cart with a single item qty 1 @ 0.125: an exact representable float
whose cent value 12.5 is a rounding tie. -/
def cartEighth : Cart :=
  { id := 5, status := CartStatus.active,
    items := [{ id := 50, productId := 1, quantity := 1, unitPrice := 1/8, updatedAt := 0 }],
    updatedAt := 0, expiresAt := none }

/-- A concrete signing function standing in for the HMAC (the signature
of `v` is `v` with `"X"` appended). -/
def exampleSig : String → String := fun v => v ++ "X"

/-- Session cart `{A: qty 10, B: qty 2}` — no conflicting sum exceeds 99
against `userCartA`. -/
def sessCartSmall : Cart :=
  { id := 2, status := CartStatus.active,
    items := [{ id := 20, productId := 1, quantity := 10, unitPrice := 10, updatedAt := 0 },
              itemB2],
    updatedAt := 0, expiresAt := some 100 }

/-! ## Lemmas about the conflict branch -/

theorem ratAbs_eq_abs (x : ℚ) : ratAbs x = |x| := by
  unfold ratAbs
  rcases lt_or_le x 0 with h | h
  · rw [if_pos h, abs_of_neg h]
  · rw [if_neg (not_lt.2 h), abs_of_nonneg h]

theorem conflictUpdate_productId (now : Nat) (u s : CartItem) :
    ((conflictUpdate now u s).1).productId = u.productId := by
  unfold conflictUpdate
  dsimp only
  split <;> split <;> rfl

theorem conflictUpdate_quantity (now : Nat) (u s : CartItem) :
    ((conflictUpdate now u s).1).quantity =
      if u.quantity + s.quantity > 99 then 99 else u.quantity + s.quantity := by
  unfold conflictUpdate
  dsimp only
  split <;> split <;> simp

theorem conflictUpdate_quantMsg_mem (now : Nat) (u s : CartItem) :
    (if u.quantity + s.quantity > 99 then
       RMsg.capped s.productId u.quantity s.quantity
     else
       RMsg.merged s.productId u.quantity s.quantity (u.quantity + s.quantity)) ∈
      (conflictUpdate now u s).2 := by
  unfold conflictUpdate
  dsimp only
  split <;> split <;> simp

/-- With no session timestamp in the future, the freshness comparison at
line 180 of `cart_resolution.py` (against the timestamp just set to
`now`) is false, so the price policy never fires: the conflict update
only sums and clamps the quantity and emits the single quantity
message. -/
theorem conflictUpdate_of_ts_le (now : Nat) (u s : CartItem)
    (h : s.updatedAt ≤ now) :
    conflictUpdate now u s =
      ({ u with
          quantity := if u.quantity + s.quantity > 99 then 99
                      else u.quantity + s.quantity,
          updatedAt := now },
       [if u.quantity + s.quantity > 99 then
          RMsg.capped s.productId u.quantity s.quantity
        else
          RMsg.merged s.productId u.quantity s.quantity (u.quantity + s.quantity)]) := by
  unfold conflictUpdate
  dsimp only
  rw [if_neg (by omega)]

/-! ## Lemmas about `updateMatch` -/

theorem updateMatch_eq_none_iff (now : Nat) (s : CartItem) (us : List CartItem) :
    updateMatch now s us = none ↔ ∀ u ∈ us, u.productId ≠ s.productId := by
  induction us with
  | nil => simp [updateMatch]
  | cons u us ih =>
    by_cases h : u.productId = s.productId
    · simp [updateMatch, h]
    · simp only [updateMatch, if_neg h, Option.map_eq_none', List.mem_cons]
      rw [ih]
      constructor
      · rintro hall x (rfl | hx)
        · exact h
        · exact hall x hx
      · intro hall x hx
        exact hall x (Or.inr hx)

/-- Structure of a successful `updateMatch`: the messages come from the
conflict update of some matching member, product ids are unchanged,
items for other products are untouched, and every member of the result
is either an original member or the updated item. -/
theorem updateMatch_some_spec (now : Nat) (s : CartItem)
    (us us2 : List CartItem) (msgs : List RMsg)
    (h : updateMatch now s us = some (us2, msgs)) :
    us2.map CartItem.productId = us.map CartItem.productId ∧
    (∀ x ∈ us, x.productId ≠ s.productId → x ∈ us2) ∧
    (∃ u ∈ us, u.productId = s.productId ∧ msgs = (conflictUpdate now u s).2 ∧
       ∀ x ∈ us2, x ∈ us ∨ x = (conflictUpdate now u s).1) := by
  induction us generalizing us2 msgs with
  | nil => simp [updateMatch] at h
  | cons u us ih =>
    by_cases hpid : u.productId = s.productId
    · rw [updateMatch, if_pos hpid] at h
      obtain ⟨rfl, rfl⟩ : (conflictUpdate now u s).1 :: us = us2 ∧
          (conflictUpdate now u s).2 = msgs := by
        constructor <;> [exact congrArg Prod.fst (Option.some.inj h);
                         exact congrArg Prod.snd (Option.some.inj h)]
      refine ⟨by simp [conflictUpdate_productId, hpid], ?_, ?_⟩
      · intro x hx hne
        rcases List.mem_cons.1 hx with rfl | hx
        · exact absurd hpid hne
        · exact List.mem_cons_of_mem _ hx
      · refine ⟨u, List.mem_cons_self u us, hpid, rfl, ?_⟩
        intro x hx
        rcases List.mem_cons.1 hx with rfl | hx
        · exact Or.inr rfl
        · exact Or.inl (List.mem_cons_of_mem _ hx)
    · rw [updateMatch, if_neg hpid] at h
      obtain ⟨⟨us3, msgs3⟩, hrec, heq⟩ := Option.map_eq_some.1 h
      obtain ⟨rfl, rfl⟩ : u :: us3 = us2 ∧ msgs3 = msgs := by
        refine ⟨congrArg Prod.fst heq, congrArg Prod.snd heq⟩
      obtain ⟨hmap, hkeep, u0, hu0, hu0pid, rfl, hmem⟩ := ih us3 msgs3 hrec
      refine ⟨by simp [hmap], ?_, ?_⟩
      · intro x hx hne
        rcases List.mem_cons.1 hx with rfl | hx
        · exact List.mem_cons_self _ _
        · exact List.mem_cons_of_mem _ (hkeep x hx hne)
      · refine ⟨u0, List.mem_cons_of_mem _ hu0, hu0pid, rfl, ?_⟩
        intro x hx
        rcases List.mem_cons.1 hx with rfl | hx
        · exact Or.inl (List.mem_cons_self _ _)
        · rcases hmem x hx with hx2 | hx2
          · exact Or.inl (List.mem_cons_of_mem _ hx2)
          · exact Or.inr hx2

/-- With distinct product ids, the member `u` matching the session item
is the one that gets updated: `updateMatch` succeeds, the messages are
`u`'s conflict messages, and the updated item is in the result. -/
theorem updateMatch_found (now : Nat) (s u : CartItem) (us : List CartItem)
    (hnd : (us.map CartItem.productId).Nodup) (hu : u ∈ us)
    (hpid : u.productId = s.productId) :
    ∃ us2, updateMatch now s us = some (us2, (conflictUpdate now u s).2) ∧
      (conflictUpdate now u s).1 ∈ us2 := by
  induction us with
  | nil => cases hu
  | cons v vs ih =>
    by_cases hv : v.productId = s.productId
    · have huv : u = v := by
        rcases List.mem_cons.1 hu with rfl | hu2
        · rfl
        · exfalso
          have : v.productId ∉ vs.map CartItem.productId :=
            (List.nodup_cons.1 hnd).1
          exact this (by
            rw [hv, ← hpid]
            exact List.mem_map_of_mem CartItem.productId hu2)
      subst huv
      exact ⟨(conflictUpdate now u s).1 :: vs,
        by rw [updateMatch, if_pos hv], List.mem_cons_self _ _⟩
    · have hu2 : u ∈ vs := by
        rcases List.mem_cons.1 hu with rfl | hu2
        · exact absurd hpid hv
        · exact hu2
      obtain ⟨us2, hum, hmem⟩ := ih (List.nodup_cons.1 hnd).2 hu2
      exact ⟨v :: us2, by rw [updateMatch, if_neg hv, hum]; rfl,
        List.mem_cons_of_mem _ hmem⟩

/-! ## Lemmas about the merge loop `mergeItems` -/

theorem mergeItems_pidmap (now : Nat) (ss : List CartItem) :
    ∀ us : List CartItem,
      ((mergeItems now us ss).1).map CartItem.productId =
        us.map CartItem.productId := by
  induction ss with
  | nil => intro us; rfl
  | cons s rest ih =>
    intro us
    cases hm : updateMatch now s us with
    | none => simpa [mergeItems, hm] using ih us
    | some r =>
      obtain ⟨us2, msgs⟩ := r
      have hspec := updateMatch_some_spec now s us us2 msgs hm
      calc ((mergeItems now us (s :: rest)).1).map CartItem.productId
          = ((mergeItems now us2 rest).1).map CartItem.productId := by
            simp [mergeItems, hm]
        _ = us2.map CartItem.productId := ih us2
        _ = us.map CartItem.productId := hspec.1

/-- An item whose product id matches no remaining session item survives
the merge loop unchanged. -/
theorem mergeItems_preserves (now : Nat) (ss : List CartItem) :
    ∀ us : List CartItem, ∀ x ∈ us,
      (∀ s ∈ ss, x.productId ≠ s.productId) →
        x ∈ (mergeItems now us ss).1 := by
  induction ss with
  | nil => intro us x hx _; simpa [mergeItems] using hx
  | cons s rest ih =>
    intro us x hx hno
    cases hm : updateMatch now s us with
    | none =>
      have := ih us x hx fun s' hs' => hno s' (List.mem_cons_of_mem _ hs')
      simpa [mergeItems, hm] using this
    | some r =>
      obtain ⟨us2, msgs⟩ := r
      have hspec := updateMatch_some_spec now s us us2 msgs hm
      have hx2 : x ∈ us2 := hspec.2.1 x hx (hno s (List.mem_cons_self _ _))
      have := ih us2 x hx2 fun s' hs' => hno s' (List.mem_cons_of_mem _ hs')
      simpa [mergeItems, hm] using this

/-- Every message produced by the merge loop is either an added-product
message or the conflict messages of some user item and some session
item. -/
theorem mergeItems_msgs_shape (now : Nat) (ss : List CartItem) :
    ∀ us : List CartItem, ∀ m ∈ (mergeItems now us ss).2.2,
      (∃ s ∈ ss, m = RMsg.added s.productId) ∨
      (∃ u s : CartItem, s ∈ ss ∧ m ∈ (conflictUpdate now u s).2) := by
  induction ss with
  | nil => intro us m hm; simp [mergeItems] at hm
  | cons s rest ih =>
    intro us m hm
    cases hum : updateMatch now s us with
    | none =>
      simp only [mergeItems, hum] at hm
      rcases List.mem_cons.1 hm with rfl | hm2
      · exact Or.inl ⟨s, List.mem_cons_self _ _, rfl⟩
      · rcases ih us m hm2 with ⟨s', hs', he⟩ | ⟨u', s', hs', he⟩
        · exact Or.inl ⟨s', List.mem_cons_of_mem _ hs', he⟩
        · exact Or.inr ⟨u', s', List.mem_cons_of_mem _ hs', he⟩
    | some r =>
      obtain ⟨us2, msgs⟩ := r
      have hspec := updateMatch_some_spec now s us us2 msgs hum
      obtain ⟨-, -, u0, hu0, -, hmsgs, -⟩ := hspec
      simp only [mergeItems, hum, List.mem_append] at hm
      rcases hm with hm1 | hm2
      · exact Or.inr ⟨u0, s, List.mem_cons_self _ _, hmsgs ▸ hm1⟩
      · rcases ih us2 m hm2 with ⟨s', hs', he⟩ | ⟨u', s', hs', he⟩
        · exact Or.inl ⟨s', List.mem_cons_of_mem _ hs', he⟩
        · exact Or.inr ⟨u', s', List.mem_cons_of_mem _ hs', he⟩

/-- Conflict case of the merge loop: with per-cart distinct product ids,
a session item that matches a user item produces that user item's
conflict update in the final item list and its conflict messages in the
output. -/
theorem mergeItems_conflict (now : Nat) (ss : List CartItem)
    (hndS : (ss.map CartItem.productId).Nodup) :
    ∀ us : List CartItem, (us.map CartItem.productId).Nodup →
    ∀ s ∈ ss, ∀ u ∈ us, u.productId = s.productId →
      (conflictUpdate now u s).1 ∈ (mergeItems now us ss).1 ∧
      ∀ m ∈ (conflictUpdate now u s).2, m ∈ (mergeItems now us ss).2.2 := by
  induction ss with
  | nil => intro us _ s hs; cases hs
  | cons s0 rest ih =>
    intro us hndU s hs u hu hpid
    rcases List.mem_cons.1 hs with rfl | hs2
    · -- s is the head: updateMatch fires on u now
      obtain ⟨us2, hum, hmem⟩ := updateMatch_found now s u us hndU hu hpid
      have hspec := updateMatch_some_spec now s us us2 _ hum
      constructor
      · -- the updated item survives the rest of the loop
        have hsurv : (conflictUpdate now u s).1 ∈ (mergeItems now us2 rest).1 := by
          apply mergeItems_preserves now rest us2 _ hmem
          intro s' hs'
          rw [conflictUpdate_productId, hpid]
          intro hcontra
          exact (List.nodup_cons.1 hndS).1
            (hcontra ▸ List.mem_map_of_mem CartItem.productId hs')
        simpa [mergeItems, hum] using hsurv
      · intro m hm
        simp [mergeItems, hum, List.mem_append, hm]
    · -- s is further down; the head step does not touch u
      have hs0pid : s0.productId ≠ s.productId := by
        intro hcontra
        exact (List.nodup_cons.1 hndS).1
          (hcontra ▸ List.mem_map_of_mem CartItem.productId hs2)
      cases hum : updateMatch now s0 us with
      | none =>
        have := ih (List.nodup_cons.1 hndS).2 us hndU s hs2 u hu hpid
        refine ⟨by simpa [mergeItems, hum] using this.1, fun m hm => ?_⟩
        have := this.2 m hm
        simp [mergeItems, hum, this]
      | some r =>
        obtain ⟨us2, msgs⟩ := r
        have hspec := updateMatch_some_spec now s0 us us2 msgs hum
        have hu2 : u ∈ us2 :=
          hspec.2.1 u hu (by rw [hpid]; exact fun h => hs0pid h.symm)
        have hnd2 : (us2.map CartItem.productId).Nodup := hspec.1 ▸ hndU
        have := ih (List.nodup_cons.1 hndS).2 us2 hnd2 s hs2 u hu2 hpid
        refine ⟨by simpa [mergeItems, hum] using this.1, fun m hm => ?_⟩
        have := this.2 m hm
        simp [mergeItems, hum, List.mem_append, this]

/-- Added case of the merge loop: a session item matching no user item is
transferred unchanged except for its timestamp, with an added-product
message. -/
theorem mergeItems_added (now : Nat) (ss : List CartItem) :
    ∀ us : List CartItem, ∀ s ∈ ss,
      (∀ u ∈ us, u.productId ≠ s.productId) →
        { s with updatedAt := now } ∈ (mergeItems now us ss).2.1 ∧
        RMsg.added s.productId ∈ (mergeItems now us ss).2.2 := by
  induction ss with
  | nil => intro us s hs; cases hs
  | cons s0 rest ih =>
    intro us s hs hnomatch
    rcases List.mem_cons.1 hs with rfl | hs2
    · have hum : updateMatch now s us = none :=
        (updateMatch_eq_none_iff now s us).2 hnomatch
      constructor <;> simp [mergeItems, hum]
    · cases hum : updateMatch now s0 us with
      | none =>
        have := ih us s hs2 hnomatch
        exact ⟨by simp [mergeItems, hum, this.1], by simp [mergeItems, hum, this.2]⟩
      | some r =>
        obtain ⟨us2, msgs⟩ := r
        have hspec := updateMatch_some_spec now s0 us us2 msgs hum
        have hno2 : ∀ u ∈ us2, u.productId ≠ s.productId := by
          intro u hu
          have : u.productId ∈ us2.map CartItem.productId :=
            List.mem_map_of_mem CartItem.productId hu
          rw [hspec.1] at this
          obtain ⟨u0, hu0, he⟩ := List.mem_map.1 this
          rw [← he]
          exact hnomatch u0 hu0
        have := ih us2 s hs2 hno2
        exact ⟨by simp [mergeItems, hum, this.1],
               by simp [mergeItems, hum, List.mem_append, this.2]⟩

/-! ## Comparing `merge_carts` with `resolve_cart_conflicts` -/

/-- When no session timestamp is in the future and the summed quantity
of every conflicting product stays within 99, the Store's per-item
update and the Engine's conflict update produce the same item list. -/
theorem updateMatch_fst_eq_mergeTransfer (now : Nat) (s : CartItem)
    (hts : s.updatedAt ≤ now) :
    ∀ us : List CartItem,
      (∀ u ∈ us, u.productId = s.productId → u.quantity + s.quantity ≤ 99) →
      (updateMatch now s us).map Prod.fst = mergeTransfer now s us := by
  intro us
  induction us with
  | nil => intro _; rfl
  | cons u us ih =>
    intro hq
    by_cases hpid : u.productId = s.productId
    · rw [updateMatch, if_pos hpid, mergeTransfer, if_pos hpid]
      have hle : u.quantity + s.quantity ≤ 99 := hq u (List.mem_cons_self _ _) hpid
      rw [conflictUpdate_of_ts_le now u s hts]
      simp only [Option.map_some', if_neg (by omega : ¬ u.quantity + s.quantity > 99)]
    · rw [updateMatch, if_neg hpid, mergeTransfer, if_neg hpid,
        ← ih fun x hx => hq x (List.mem_cons_of_mem _ hx)]
      cases updateMatch now s us <;> rfl

/-- With an empty target list every source item is moved, timestamps
refreshed, in source order. -/
theorem mergeCartsItems_nil_target (now : Nat) (ss : List CartItem) :
    mergeCartsItems now [] ss = ([], ss.map fun s => { s with updatedAt := now }) := by
  induction ss with
  | nil => rfl
  | cons s rest ih => simp [mergeCartsItems, mergeTransfer, ih]

/-- Under the same hypotheses, the two merge loops agree on both the
final target items and the transferred items. -/
theorem mergeItems_eq_mergeCartsItems (now : Nat) (ss : List CartItem)
    (hts : ∀ s ∈ ss, s.updatedAt ≤ now)
    (hndS : (ss.map CartItem.productId).Nodup) :
    ∀ us : List CartItem,
      (∀ s ∈ ss, ∀ u ∈ us, u.productId = s.productId →
        u.quantity + s.quantity ≤ 99) →
      (mergeItems now us ss).1 = (mergeCartsItems now us ss).1 ∧
      (mergeItems now us ss).2.1 = (mergeCartsItems now us ss).2 := by
  induction ss with
  | nil => intro us _; exact ⟨rfl, rfl⟩
  | cons s rest ih =>
    intro us hq
    have htr := updateMatch_fst_eq_mergeTransfer now s
      (hts s (List.mem_cons_self _ _)) us
      (hq s (List.mem_cons_self _ _))
    cases hum : updateMatch now s us with
    | none =>
      have hmt : mergeTransfer now s us = none := by rw [← htr, hum]; rfl
      have := ih (fun s' hs' => hts s' (List.mem_cons_of_mem _ hs'))
        (List.nodup_cons.1 hndS).2 us
        (fun s' hs' u hu => hq s' (List.mem_cons_of_mem _ hs') u hu)
      exact ⟨by simp [mergeItems, mergeCartsItems, hum, hmt, this.1],
             by simp [mergeItems, mergeCartsItems, hum, hmt, this.2]⟩
    | some r =>
      obtain ⟨us2, msgs⟩ := r
      have hmt : mergeTransfer now s us = some us2 := by rw [← htr, hum]; rfl
      have hspec := updateMatch_some_spec now s us us2 msgs hum
      have hq2 : ∀ s' ∈ rest, ∀ u ∈ us2, u.productId = s'.productId →
          u.quantity + s'.quantity ≤ 99 := by
        intro s' hs' u hu hpid
        obtain ⟨-, -, u0, -, hu0pid, -, hmem⟩ := hspec
        rcases hmem u hu with hu2 | rfl
        · exact hq s' (List.mem_cons_of_mem _ hs') u hu2 hpid
        · exfalso
          have : s.productId ≠ s'.productId := by
            intro hcontra
            exact (List.nodup_cons.1 hndS).1
              (hcontra ▸ List.mem_map_of_mem CartItem.productId hs')
          rw [conflictUpdate_productId, hu0pid] at hpid
          exact this hpid
      have := ih (fun s' hs' => hts s' (List.mem_cons_of_mem _ hs'))
        (List.nodup_cons.1 hndS).2 us2 hq2
      exact ⟨by simp [mergeItems, mergeCartsItems, hum, hmt, this.1],
             by simp [mergeItems, mergeCartsItems, hum, hmt, this.2]⟩

/-! ## Branch equations for `resolve_cart_conflicts` -/

theorem resolve_sessEmpty_eq (userCart sessCart : Cart) (now : Nat)
    (hS : sessCart.items = []) :
    resolve_cart_conflicts userCart sessCart now =
      (userCart, sessCart, [RMsg.sessionEmpty]) := by
  unfold resolve_cart_conflicts
  rw [if_pos (by simp [hS])]

theorem resolve_userEmpty_eq (userCart sessCart : Cart) (now : Nat)
    (hS : sessCart.items ≠ []) (hU : userCart.items = []) :
    resolve_cart_conflicts userCart sessCart now =
      ({ userCart with items := sessCart.items.map fun i => { i with updatedAt := now } },
       { sessCart with items := [] },
       [RMsg.userEmptyAdoptAll]) := by
  unfold resolve_cart_conflicts
  rw [if_neg (by simp [List.isEmpty_iff, hS]), if_pos (by simp [hU])]

theorem resolve_main_eq (userCart sessCart : Cart) (now : Nat)
    (hS : sessCart.items ≠ []) (hU : userCart.items ≠ []) :
    resolve_cart_conflicts userCart sessCart now =
      ({ userCart with
          items := (mergeItems now userCart.items sessCart.items).1 ++
            (mergeItems now userCart.items sessCart.items).2.1,
          updatedAt := now },
       { sessCart with items := [], status := CartStatus.abandoned, updatedAt := now },
       (mergeItems now userCart.items sessCart.items).2.2) := by
  unfold resolve_cart_conflicts
  rw [if_neg (by simp [List.isEmpty_iff, hS]), if_neg (by simp [List.isEmpty_iff, hU])]

/-! ## Rounding bounds -/

theorem roundHalfEvenInt_close (x : ℚ) : |(roundHalfEvenInt x : ℚ) - x| ≤ 1/2 := by
  have h1 : (⌊x⌋ : ℚ) ≤ x := Int.floor_le x
  have h2 : x < ⌊x⌋ + 1 := Int.lt_floor_add_one x
  unfold roundHalfEvenInt
  dsimp only
  split
  · rename_i h
    rw [abs_le]
    constructor <;> linarith
  · split
    · rename_i h h2b
      rw [abs_le]
      push_cast
      constructor <;> linarith
    · split <;> (rw [abs_le]; push_cast; rename_i ha hb _; constructor <;> linarith)

theorem pythonRound2_close (x : ℚ) : |pythonRound2 x - x| ≤ 1/200 := by
  have h := roundHalfEvenInt_close (x * 100)
  have he : pythonRound2 x - x = ((roundHalfEvenInt (x * 100) : ℚ) - x * 100) / 100 := by
    unfold pythonRound2
    ring
  rw [he, abs_div, abs_of_pos (show (0 : ℚ) < 100 by norm_num)]
  linarith

/-! ## Claim theorems -/

/-- C1 (counterexample): on user cart `{A: qty 5}` and guest cart
`{A: qty 97, B: qty 2}` the Store's `merge_carts` leaves product A at
quantity 102, while the Resolution Engine's `resolve_cart_conflicts`
clamps it to 99 — the Store merge does not implement section 4.3's
conflict semantics. -/
theorem store_merge_quantity_differs :
    (merge_carts sessCartAB userCartA 1).1.items.map CartItem.quantity = [102, 2] ∧
    (resolve_cart_conflicts userCartA sessCartAB 1).1.items.map CartItem.quantity
      = [99, 2] ∧
    ([102, 2] : List Int) ≠ [99, 2] := by decide

/-- C1 (amended): `merge_carts` agrees with `resolve_cart_conflicts` on
the target cart's items exactly on the inputs where section 4.3's extra
rules cannot fire: when no session timestamp is in the future (so the
Engine's dead price-adoption branch stays dead) and every conflicting
product's summed quantity stays within 99 (so the clamp is a no-op);
product ids are unique per cart. -/
theorem merge_carts_refines_resolution_without_overflow
    (userCart sessCart : Cart) (now : Nat)
    (hts : ∀ s ∈ sessCart.items, s.updatedAt ≤ now)
    (hndS : (sessCart.items.map CartItem.productId).Nodup)
    (hq : ∀ s ∈ sessCart.items, ∀ u ∈ userCart.items,
        u.productId = s.productId → u.quantity + s.quantity ≤ 99) :
    (merge_carts sessCart userCart now).1.items =
      (resolve_cart_conflicts userCart sessCart now).1.items := by
  by_cases hS : sessCart.items = []
  · rw [resolve_sessEmpty_eq userCart sessCart now hS]
    unfold merge_carts
    rw [hS]
    simp [mergeCartsItems]
  · by_cases hU : userCart.items = []
    · rw [resolve_userEmpty_eq userCart sessCart now hS hU]
      unfold merge_carts
      rw [hU, mergeCartsItems_nil_target]
      simp
    · rw [resolve_main_eq userCart sessCart now hS hU]
      unfold merge_carts
      have := mergeItems_eq_mergeCartsItems now sessCart.items hts hndS
        userCart.items hq
      dsimp only
      rw [this.1, this.2]

/-- C1 (witness): a merge with no quantity overflow, where Store and
Engine produce identical target items. -/
theorem merge_carts_refines_resolution_without_overflow_witness :
    (merge_carts sessCartSmall userCartA 1).1.items =
      (resolve_cart_conflicts userCartA sessCartSmall 1).1.items :=
  merge_carts_refines_resolution_without_overflow userCartA sessCartSmall 1
    (by decide) (by decide) (by decide)

/-- C2: the price policy of `resolve_cart_conflicts` is dead code — the
source refreshes `user_item.updated_at` to now *before* the freshness
comparison, so whenever no session item's timestamp lies in the future
the guest price is never adopted and no price-adoption message is
emitted, contradicting the spec's "fresher snapshot wins" policy. -/
theorem resolve_no_price_adoption (userCart sessCart : Cart) (now : Nat)
    (hts : ∀ s ∈ sessCart.items, s.updatedAt ≤ now) :
    ∀ m ∈ (resolve_cart_conflicts userCart sessCart now).2.2,
      m.isPriceAdoption = false := by
  intro m hm
  by_cases hS : sessCart.items = []
  · rw [resolve_sessEmpty_eq userCart sessCart now hS] at hm
    simp at hm
    subst hm
    rfl
  · by_cases hU : userCart.items = []
    · rw [resolve_userEmpty_eq userCart sessCart now hS hU] at hm
      simp at hm
      subst hm
      rfl
    · rw [resolve_main_eq userCart sessCart now hS hU] at hm
      rcases mergeItems_msgs_shape now sessCart.items userCart.items m hm with
        ⟨s, hs, rfl⟩ | ⟨u, s, hs, hmem⟩
      · rfl
      · rw [conflictUpdate_of_ts_le now u s (hts s hs)] at hmem
        simp only [List.mem_singleton] at hmem
        subst hmem
        split <;> rfl

/-- C2 (witness, at the spec's own merge-price example): user item
priced 10.00 updated at time 1, session item priced 12.00 updated at
time 2, merged at time 3 — no price-adoption message is emitted and the
merged item keeps the user's price 10.00, where the spec's testable
property demands 12.00 plus a message. -/
theorem resolve_no_price_adoption_witness :
    ((resolve_cart_conflicts userCartPrice sessCartPrice 3).2.2.all
        fun m => !m.isPriceAdoption) = true ∧
    (resolve_cart_conflicts userCartPrice sessCartPrice 3).1.items.map
        CartItem.unitPrice = [10] := by
  have h := resolve_no_price_adoption userCartPrice sessCartPrice 3 (by decide)
  refine ⟨List.all_eq_true.2 fun m hm => ?_, by decide⟩
  simp [h m hm]

/-- C4 (counterexample): merging guest cart `{A: 97, B: 2}` into an
*empty* user cart takes the bulk-adopt branch, which returns early
without marking the source cart — the source stays ACTIVE, not
ABANDONED. -/
theorem resolve_bulk_adopt_leaves_source_active :
    (resolve_cart_conflicts emptyUserCart sessCartAB 1).2.1.status =
      CartStatus.active ∧
    CartStatus.active ≠ CartStatus.abandoned := by decide

/-- C4 (amended): after merging a non-empty guest cart, the source cart
is marked ABANDONED only on the conflict path (both carts non-empty);
on the bulk-adopt path (empty user cart) the source keeps its previous
status — it is never deleted, its emptied row remains. -/
theorem resolve_source_cart_status (userCart sessCart : Cart) (now : Nat)
    (hS : sessCart.items ≠ []) :
    (userCart.items ≠ [] →
      (resolve_cart_conflicts userCart sessCart now).2.1.status =
        CartStatus.abandoned) ∧
    (userCart.items = [] →
      (resolve_cart_conflicts userCart sessCart now).2.1.status = sessCart.status ∧
      (resolve_cart_conflicts userCart sessCart now).2.1.items = []) := by
  constructor
  · intro hU
    rw [resolve_main_eq userCart sessCart now hS hU]
  · intro hU
    rw [resolve_userEmpty_eq userCart sessCart now hS hU]
    exact ⟨rfl, rfl⟩

/-- C4 (witness): the conflict path abandons the source; the bulk-adopt
path leaves the concrete active source cart active. -/
theorem resolve_source_cart_status_witness :
    (resolve_cart_conflicts userCartA sessCartAB 1).2.1.status =
      CartStatus.abandoned ∧
    (resolve_cart_conflicts emptyUserCart sessCartAB 1).2.1.status =
      CartStatus.active := by
  constructor
  · exact (resolve_source_cart_status userCartA sessCartAB 1 (by decide)).1
      (by decide)
  · exact ((resolve_source_cart_status emptyUserCart sessCartAB 1 (by decide)).2
      (by decide)).1.trans (by decide)

/-- C5 (counterexample): merging an empty guest cart is *not*
zero-message — the code appends "Session cart is empty, no conflicts to
resolve", so the returned message list has length one. -/
theorem resolve_empty_guest_emits_message :
    (resolve_cart_conflicts userCartA emptySessCart 1).2.2 = [RMsg.sessionEmpty] ∧
    ([RMsg.sessionEmpty] : List RMsg) ≠ [] := by decide

/-- C5 (amended): an empty guest cart makes the merge a no-op returning
the user cart unchanged (and leaving the guest cart untouched), but with
exactly one informational message rather than an empty message list. -/
theorem resolve_empty_guest_noop_single_message
    (userCart sessCart : Cart) (now : Nat) (hS : sessCart.items = []) :
    resolve_cart_conflicts userCart sessCart now =
      (userCart, sessCart, [RMsg.sessionEmpty]) :=
  resolve_sessEmpty_eq userCart sessCart now hS

/-- C5 (witness). -/
theorem resolve_empty_guest_noop_single_message_witness :
    resolve_cart_conflicts userCartA emptySessCart 1 =
      (userCartA, emptySessCart, [RMsg.sessionEmpty]) :=
  resolve_empty_guest_noop_single_message userCartA emptySessCart 1 (by decide)

/-- C3: merging two non-empty carts (per-cart product ids unique): every
product in both carts ends at the clamped sum `min 99 (user+guest)` with
a capped message when clamped and the distinct merged message otherwise;
every guest-only product is transferred keeping its quantity and price
with an added message; capped and merged messages are never equal; and
on the spec's concrete example the message list is exactly
`[capped A, added B]` in guest-item iteration order. -/
theorem resolve_merge_quantities_and_messages
    (userCart sessCart : Cart) (now : Nat)
    (hndU : (userCart.items.map CartItem.productId).Nodup)
    (hndS : (sessCart.items.map CartItem.productId).Nodup)
    (hU : userCart.items ≠ []) (hS : sessCart.items ≠ []) :
    (∀ s ∈ sessCart.items, ∀ u ∈ userCart.items, u.productId = s.productId →
      (u.quantity + s.quantity > 99 →
        RMsg.capped s.productId u.quantity s.quantity ∈
          (resolve_cart_conflicts userCart sessCart now).2.2 ∧
        ∃ m ∈ (resolve_cart_conflicts userCart sessCart now).1.items,
          m.productId = s.productId ∧ m.quantity = 99) ∧
      (u.quantity + s.quantity ≤ 99 →
        RMsg.merged s.productId u.quantity s.quantity (u.quantity + s.quantity) ∈
          (resolve_cart_conflicts userCart sessCart now).2.2 ∧
        ∃ m ∈ (resolve_cart_conflicts userCart sessCart now).1.items,
          m.productId = s.productId ∧ m.quantity = u.quantity + s.quantity)) ∧
    (∀ s ∈ sessCart.items, (∀ u ∈ userCart.items, u.productId ≠ s.productId) →
      { s with updatedAt := now } ∈
        (resolve_cart_conflicts userCart sessCart now).1.items ∧
      RMsg.added s.productId ∈
        (resolve_cart_conflicts userCart sessCart now).2.2) ∧
    (∀ (p p2 : Nat) (a b c d e : Int),
      RMsg.capped p a b ≠ RMsg.merged p2 c d e) ∧
    (resolve_cart_conflicts userCartA sessCartAB 1).2.2 =
      [RMsg.capped 1 5 97, RMsg.added 2] := by
  rw [resolve_main_eq userCart sessCart now hS hU]
  refine ⟨?_, ?_, ?_, by decide⟩
  · intro s hs u hu hpid
    obtain ⟨hitem, hmsgs⟩ :=
      mergeItems_conflict now sessCart.items hndS userCart.items hndU s hs u hu hpid
    have hq := conflictUpdate_quantMsg_mem now u s
    constructor
    · intro hgt
      rw [if_pos hgt] at hq
      refine ⟨hmsgs _ hq, (conflictUpdate now u s).1, List.mem_append_left _ hitem,
        ?_, ?_⟩
      · rw [conflictUpdate_productId, hpid]
      · rw [conflictUpdate_quantity, if_pos hgt]
    · intro hle
      have hngt : ¬ u.quantity + s.quantity > 99 := by omega
      rw [if_neg hngt] at hq
      refine ⟨hmsgs _ hq, (conflictUpdate now u s).1, List.mem_append_left _ hitem,
        ?_, ?_⟩
      · rw [conflictUpdate_productId, hpid]
      · rw [conflictUpdate_quantity, if_neg hngt]
  · intro s hs hno
    obtain ⟨hitem, hmsg⟩ := mergeItems_added now sessCart.items userCart.items s hs hno
    exact ⟨List.mem_append_right _ hitem, hmsg⟩
  · intro p p2 a b c d e h
    exact RMsg.noConfusion h

/-- C3 (witness, at the spec's merge-correctness example): user cart
`{A: qty 5}`, guest cart `{A: qty 97, B: qty 2}` — the capped message for
A and the added message for B are emitted, B is transferred with its
quantity and price intact, and the merged quantities are `[99, 2]`. -/
theorem resolve_merge_quantities_and_messages_witness :
    RMsg.capped 1 5 97 ∈ (resolve_cart_conflicts userCartA sessCartAB 1).2.2 ∧
    RMsg.added 2 ∈ (resolve_cart_conflicts userCartA sessCartAB 1).2.2 ∧
    { itemB2 with updatedAt := 1 } ∈
      (resolve_cart_conflicts userCartA sessCartAB 1).1.items ∧
    (resolve_cart_conflicts userCartA sessCartAB 1).1.items.map CartItem.quantity
      = [99, 2] := by
  have h := resolve_merge_quantities_and_messages userCartA sessCartAB 1
    (by decide) (by decide) (by decide) (by decide)
  refine ⟨?_, ?_, ?_, by decide⟩
  · exact ((h.1 itemA97 (by decide) itemA5 (by decide) (by decide)).1 (by decide)).1
  · exact (h.2.1 itemB2 (by decide) (by decide)).2
  · exact (h.2.1 itemB2 (by decide) (by decide)).1

/-- C6 (counterexample): on the one-item list (item id 1), updating a
nonexistent item id 2 returns `none`, and updating item 1 with quantity
0 also returns `none` (after deleting the row) — the "removed" and "not
found" outcomes are the same value, not distinguishable, and no
`NotFoundError` is raised. -/
theorem update_item_quantity_conflates_removed_and_missing :
    itemsOne.map CartItem.id = [1] ∧
    (update_item_quantity 7 2 5 itemsOne).1 = none ∧
    (update_item_quantity 7 1 0 itemsOne).1 = none ∧
    (update_item_quantity 7 1 0 itemsOne).2 = [] ∧
    (update_item_quantity 7 2 5 itemsOne).1 = (update_item_quantity 7 1 0 itemsOne).1 := by
  decide

/-- C6 (amended): `update_item_quantity` has three outcomes but only two
observable return values — a missing item id returns `(None, unchanged)`;
an existing item with quantity ≤ 0 is deleted and *also* returns `None`;
a positive quantity updates the item in place and returns it.  Removed
and not-found are therefore not distinguishable by the caller. -/
theorem update_item_quantity_outcomes (now itemId : Nat) (q : Int)
    (items : List CartItem) :
    ((∀ it ∈ items, it.id ≠ itemId) →
      update_item_quantity now itemId q items = (none, items)) ∧
    ((items.map CartItem.id).Nodup →
      ∀ it ∈ items, it.id = itemId →
        (q ≤ 0 →
          (update_item_quantity now itemId q items).1 = none ∧
          ∀ x ∈ (update_item_quantity now itemId q items).2, x.id ≠ itemId) ∧
        (0 < q →
          (update_item_quantity now itemId q items).1 =
            some { it with quantity := q, updatedAt := now })) := by
  induction items with
  | nil =>
    exact ⟨fun _ => rfl, fun _ it hit => absurd hit (List.not_mem_nil it)⟩
  | cons a rest ih =>
    by_cases ha : a.id = itemId
    · refine ⟨fun hall => absurd ha (hall a (List.mem_cons_self _ _)), ?_⟩
      intro hnd it hit hitid
      have hia : it = a := by
        rcases List.mem_cons.1 hit with rfl | hit2
        · rfl
        · exfalso
          exact (List.nodup_cons.1 hnd).1
            (ha ▸ hitid ▸ List.mem_map_of_mem CartItem.id hit2)
      subst hia
      constructor
      · intro hq0
        rw [update_item_quantity, if_pos ha, if_pos hq0]
        refine ⟨rfl, fun x hx => ?_⟩
        intro hxid
        exact (List.nodup_cons.1 hnd).1
          (ha ▸ hxid ▸ List.mem_map_of_mem CartItem.id hx)
      · intro hq0
        rw [update_item_quantity, if_pos ha, if_neg (by omega)]
    · constructor
      · intro hall
        have := ih.1 fun x hx => hall x (List.mem_cons_of_mem _ hx)
        rw [update_item_quantity, if_neg ha, this]
      · intro hnd it hit hitid
        have hit2 : it ∈ rest := by
          rcases List.mem_cons.1 hit with rfl | hit2
          · exact absurd hitid ha
          · exact hit2
        have hrec := ih.2 (List.nodup_cons.1 hnd).2 it hit2 hitid
        constructor
        · intro hq0
          have := hrec.1 hq0
          rw [update_item_quantity, if_neg ha]
          refine ⟨by simp [this.1], ?_⟩
          intro x hx
          dsimp only at hx
          rcases List.mem_cons.1 hx with rfl | hx2
          · exact ha
          · exact this.2 x hx2
        · intro hq0
          have := hrec.2 hq0
          rw [update_item_quantity, if_neg ha]
          simpa using this

/-- C6 (witness): concrete calls showing the three outcomes on
`itemsOne`. -/
theorem update_item_quantity_outcomes_witness :
    update_item_quantity 7 9 5 itemsOne = (none, itemsOne) ∧
    (update_item_quantity 7 1 0 itemsOne).1 = none ∧
    (update_item_quantity 7 1 4 itemsOne).1 =
      some { id := 1, productId := 1, quantity := 4, unitPrice := 2, updatedAt := 7 } := by
  refine ⟨(update_item_quantity_outcomes 7 9 5 itemsOne).1 (by decide), ?_, ?_⟩
  · exact (((update_item_quantity_outcomes 7 1 0 itemsOne).2 (by decide)
      { id := 1, productId := 1, quantity := 5, unitPrice := 2, updatedAt := 0 }
      (by decide) (by decide)).1 (by decide)).1
  · exact ((update_item_quantity_outcomes 7 1 4 itemsOne).2 (by decide)
      { id := 1, productId := 1, quantity := 5, unitPrice := 2, updatedAt := 0 }
      (by decide) (by decide)).2 (by decide)

/-- Per-item behaviour of the validation loop on an over-quantity item
whose product exists: the quantity is clamped to 99 (price possibly also
refreshed), the item lands in `updated_items`, and the
quantity-exceeds-maximum warning is recorded with the original
quantity. -/
theorem validateItem_overquantity (catalog : List Product) (now : Nat)
    (item : CartItem) (p : Product)
    (hp : catalog.find? (fun pr => pr.id = item.productId) = some p)
    (hq : item.quantity > 99) :
    (validateItem catalog now item).1.id = item.id ∧
    (validateItem catalog now item).1.quantity = 99 ∧
    (validateItem catalog now item).2.1 = [] ∧
    (validateItem catalog now item).1 ∈ (validateItem catalog now item).2.2.2 ∧
    VMsg.quantityExceedsMax item.quantity p.name ∈
      (validateItem catalog now item).2.2.1 := by
  have h1 : ¬ item.quantity < 1 := by omega
  unfold validateItem
  rw [hp]
  dsimp only
  simp only [decide_eq_true_eq]
  split_ifs <;> simp

/-- C7: every over-quantity item whose product exists is clamped to 99
in the persisted cart state, contributes a quantity warning, and appears
among the updated items; `is_valid` is exactly "no errors", so warnings
alone never invalidate the cart. -/
theorem validate_clamps_overquantity (catalog : List Product) (cart : Cart)
    (now : Nat) :
    (∀ item ∈ cart.items, ∀ p : Product,
      catalog.find? (fun pr => pr.id = item.productId) = some p →
      item.quantity > 99 →
      ∃ it2, it2 ∈ (resolve_and_validate_cart catalog cart now).2.items ∧
        it2.id = item.id ∧ it2.quantity = 99 ∧
        it2 ∈ (resolve_and_validate_cart catalog cart now).1.updatedItems ∧
        VMsg.quantityExceedsMax item.quantity p.name ∈
          (resolve_and_validate_cart catalog cart now).1.warnings) ∧
    ((resolve_and_validate_cart catalog cart now).1.isValid = true ↔
      (resolve_and_validate_cart catalog cart now).1.errors = []) := by
  constructor
  · intro item hitem p hp hq
    obtain ⟨hid, hq99, -, hupd, hwarn⟩ :=
      validateItem_overquantity catalog now item p hp hq
    refine ⟨(validateItem catalog now item).1, ?_, hid, hq99, ?_, ?_⟩
    · show _ ∈ (cart.items.map (validateItem catalog now)).map fun r => r.1
      exact List.mem_map_of_mem _ (List.mem_map_of_mem _ hitem)
    · show _ ∈ ((cart.items.map (validateItem catalog now)).map
        fun r => r.2.2.2).flatten
      exact List.mem_flatten.2 ⟨(validateItem catalog now item).2.2.2,
        List.mem_map_of_mem _ (List.mem_map_of_mem _ hitem), hupd⟩
    · refine List.mem_append_left _ (List.mem_flatten.2
        ⟨(validateItem catalog now item).2.2.1, ?_, hwarn⟩)
      exact List.mem_map_of_mem _ (List.mem_map_of_mem _ hitem)
  · exact List.isEmpty_iff

/-- Evaluation of `validateItem` on the quantity-150 example item. -/
theorem validateItem_cart150_eval :
    validateItem catalogW 3
      { id := 30, productId := 1, quantity := 150, unitPrice := 5, updatedAt := 0 } =
      ({ id := 30, productId := 1, quantity := 99, unitPrice := 5, updatedAt := 3 }, [],
       [VMsg.quantityExceedsMax 150 "Widget"],
       [{ id := 30, productId := 1, quantity := 99, unitPrice := 5, updatedAt := 3 }]) := by
  norm_num [validateItem, catalogW, ratAbs, List.find?]

/-- Evaluation of `resolve_and_validate_cart` on the quantity-150
example cart. -/
theorem resolve_validate_cart150_eval :
    resolve_and_validate_cart catalogW cart150 3 =
      ({ isValid := true, errors := [],
         warnings := [VMsg.quantityExceedsMax 150 "Widget"],
         updatedItems :=
           [{ id := 30, productId := 1, quantity := 99, unitPrice := 5, updatedAt := 3 }] },
       { cart150 with items :=
           [{ id := 30, productId := 1, quantity := 99, unitPrice := 5, updatedAt := 3 }] }) := by
  simp [resolve_and_validate_cart, cart150, validateItem_cart150_eval]

/-- C7 (witness, at the spec's validate-clamps example): one item with
quantity 150 at the live price ends clamped to 99, the warning names the
original quantity 150, and the cart is still valid. -/
theorem validate_clamps_overquantity_witness :
    VMsg.quantityExceedsMax 150 "Widget" ∈
      (resolve_and_validate_cart catalogW cart150 3).1.warnings ∧
    (resolve_and_validate_cart catalogW cart150 3).2.items.map
      CartItem.quantity = [99] ∧
    (resolve_and_validate_cart catalogW cart150 3).1.isValid = true := by
  obtain ⟨it2, hmem, hid, hq99, hupd, hwarn⟩ :=
    (validate_clamps_overquantity catalogW cart150 3).1
      { id := 30, productId := 1, quantity := 150, unitPrice := 5, updatedAt := 0 }
      (by decide) { id := 1, name := "Widget", price := 5 } (by decide) (by decide)
  refine ⟨hwarn, ?_, ?_⟩
  · rw [resolve_validate_cart150_eval]
    decide
  · rw [resolve_validate_cart150_eval]

/-- C8 (counterexample): with an authenticated user and a session id
present, an error in the *user-cart fetch* — an error not about the
merge step — is not re-raised: the resolver silently falls back to the
session cart. -/
theorem get_current_cart_userfetch_error_not_reraised :
    get_current_cart (some 1) (some 9) (Except.error ⟨5⟩) (Except.ok sessCartAB)
        (Except.ok userCartA) ⟨0⟩ = Except.ok sessCartAB ∧
    (Except.ok sessCartAB : Except Exc Cart) ≠ Except.error ⟨5⟩ :=
  ⟨rfl, fun h => Except.noConfusion h⟩

/-- C8 (amended): for an authenticated user, merge-step failures (the
session-cart fetch or the merge itself throwing) are swallowed and the
user's own cart is returned unmerged; a failure of the user-cart fetch
itself falls back to the session-cart fetch when a session id is present
and is re-raised only when there is none. -/
theorem get_current_cart_fallbacks (uid sid : Nat) (userCart sessCart : Cart)
    (fetchSession : Except Exc Cart) (e noSess : Exc)
    (mergeResult : Except Exc Cart) :
    (sid ≠ userCart.id → sessCart.id ≠ userCart.id → sessCart.items ≠ [] →
      ∀ me : Exc,
        get_current_cart (some uid) (some sid) (Except.ok userCart)
          (Except.ok sessCart) (Except.error me) noSess = Except.ok userCart) ∧
    (sid ≠ userCart.id → ∀ fe : Exc,
      get_current_cart (some uid) (some sid) (Except.ok userCart)
        (Except.error fe) mergeResult noSess = Except.ok userCart) ∧
    (get_current_cart (some uid) (some sid) (Except.error e) fetchSession
        mergeResult noSess = fetchSession) ∧
    (get_current_cart (some uid) none (Except.error e) fetchSession
        mergeResult noSess = Except.error e) := by
  refine ⟨?_, ?_, rfl, rfl⟩
  · intro h1 h2 h3 me
    unfold get_current_cart
    dsimp only
    rw [if_pos h1, if_pos ⟨h2, by simpa [List.isEmpty_iff] using h3⟩]
  · intro h1 fe
    unfold get_current_cart
    dsimp only
    rw [if_pos h1]

/-- C8 (witness): session id 9 differs from the user cart's id 1 and the
session cart (id 2) is non-empty, so a failing merge yields the user
cart, a failing session fetch yields the user cart, and a failing user
fetch with a session present yields the session-cart fetch result. -/
theorem get_current_cart_fallbacks_witness :
    get_current_cart (some 1) (some 9) (Except.ok userCartA)
        (Except.ok sessCartAB) (Except.error ⟨7⟩) ⟨0⟩ = Except.ok userCartA ∧
    get_current_cart (some 1) (some 9) (Except.ok userCartA)
        (Except.error ⟨8⟩) (Except.ok sessCartAB) ⟨0⟩ = Except.ok userCartA ∧
    get_current_cart (some 1) (some 9) (Except.error ⟨5⟩)
        (Except.ok sessCartAB) (Except.ok userCartA) ⟨0⟩ =
      Except.ok sessCartAB := by
  refine ⟨?_, ?_, ?_⟩
  · exact (get_current_cart_fallbacks 1 9 userCartA sessCartAB
      (Except.ok sessCartAB) ⟨5⟩ ⟨0⟩ (Except.error ⟨7⟩)).1
      (by decide) (by decide) (by decide) ⟨7⟩
  · exact (get_current_cart_fallbacks 1 9 userCartA sessCartAB
      (Except.error ⟨8⟩) ⟨5⟩ ⟨0⟩ (Except.ok sessCartAB)).2.1 (by decide) ⟨8⟩
  · exact (get_current_cart_fallbacks 1 9 userCartA sessCartAB
      (Except.ok sessCartAB) ⟨5⟩ ⟨0⟩ (Except.ok userCartA)).2.2.1

/-- C9 (counterexample): the summary's rounding rule is not round-half-up:
a cart with one item qty 1 @ 0.125 (an exact binary float, so the Python
computation hits the decimal tie 12.5 cents exactly) gets subtotal 0.12
(= 3/25) from the code's round-half-even, while round-half-up of the
exact sum gives 0.13. -/
theorem summary_rounding_not_half_up :
    (calculate_cart_summary cartEighth).subtotal = 3/25 ∧
    specRoundHalfUp2
      ((cartEighth.items.map fun i => (i.quantity : ℚ) * i.unitPrice).sum) =
        13/100 ∧
    (3/25 : ℚ) ≠ 13/100 := by
  have h1 : ((cartEighth.items.map fun i => (i.quantity : ℚ) * i.unitPrice).sum)
      = 1/8 := by
    simp [cartEighth]
  refine ⟨?_, ?_, by norm_num⟩
  · show pythonRound2 ((cartEighth.items.map
      fun i => (i.quantity : ℚ) * i.unitPrice).sum) = 3/25
    rw [h1]
    unfold pythonRound2 roundHalfEvenInt
    norm_num
  · rw [h1]
    unfold specRoundHalfUp2
    norm_num

/-- C9 (amended): the summary reports the row count, the quantity sum,
and the exact subtotal rounded to two decimals under Python's single
fixed rule — round-half-to-even, not round-half-up — so the rounded
subtotal is always within half a cent of the exact sum; on the spec's
example cart (qty 2 @ 3.335, qty 1 @ 1.00) the subtotal is exactly
7.67. -/
theorem summary_totals_and_rounding (cart : Cart) :
    (calculate_cart_summary cart).totalItems = cart.items.length ∧
    (calculate_cart_summary cart).totalQuantity =
      (cart.items.map CartItem.quantity).sum ∧
    |(calculate_cart_summary cart).subtotal -
      (cart.items.map fun i => (i.quantity : ℚ) * i.unitPrice).sum| ≤ 1/200 ∧
    (calculate_cart_summary cartSummaryEx).subtotal = 767/100 := by
  refine ⟨rfl, rfl, pythonRound2_close _, ?_⟩
  show pythonRound2 ((cartSummaryEx.items.map
    fun i => (i.quantity : ℚ) * i.unitPrice).sum) = 767/100
  have h1 : ((cartSummaryEx.items.map
      fun i => (i.quantity : ℚ) * i.unitPrice).sum) = 767/100 := by
    simp [cartSummaryEx]
    norm_num
  rw [h1]
  unfold pythonRound2 roundHalfEvenInt
  norm_num

/-- C10: a session cookie that is not in `value.signature` form or whose
signature fails HMAC verification is rejected — `get_cookie` returns
`None` — and the session middleware then uses the freshly generated UUID
as the request's session id, for any signing function. -/
theorem forged_cookie_rejected (sig : String → String) (c fresh : String)
    (h : ∀ v s, rsplitDot1 c = some (v, s) → sig v ≠ s) :
    get_cookie sig (some c) = none ∧
    dispatch_session_id sig (some c) fresh = fresh := by
  have hg : get_cookie sig (some c) = none := by
    unfold get_cookie
    dsimp only
    by_cases hc : c = ""
    · rw [if_pos hc]
    · rw [if_neg hc]
      cases hr : rsplitDot1 c with
      | none => rfl
      | some vs =>
        obtain ⟨v, s⟩ := vs
        dsimp only
        rw [if_neg (h v s hr)]
  refine ⟨hg, ?_⟩
  unfold dispatch_session_id
  rw [hg]

/-- C10 (witness): the cookie "abc.def" whose signature part "def" does
not verify (the example signer yields "abcX") is rejected and the fresh
UUID becomes the session id; same for the dotless cookie "nodot". -/
theorem forged_cookie_rejected_witness :
    get_cookie exampleSig (some "abc.def") = none ∧
    dispatch_session_id exampleSig (some "abc.def") "fresh-uuid" = "fresh-uuid" ∧
    get_cookie exampleSig (some "nodot") = none ∧
    dispatch_session_id exampleSig (some "nodot") "fresh-uuid" = "fresh-uuid" := by
  have hr : rsplitDot1 "abc.def" = some ("abc", "def") := by decide
  have h1 := forged_cookie_rejected exampleSig "abc.def" "fresh-uuid" (by
    intro v s hvs
    rw [hr] at hvs
    injection hvs with hp
    injection hp with hv hs
    subst hv
    subst hs
    decide)
  have h2 := forged_cookie_rejected exampleSig "nodot" "fresh-uuid" (by
    intro v s hvs
    rw [show rsplitDot1 "nodot" = none by decide] at hvs
    exact Option.noConfusion hvs)
  exact ⟨h1.1, h1.2, h2.1, h2.2⟩

end Pyshop
